import Mathlib

/-!
Verification of the construction-loan amortization engine in `src/app.py`.

The embedding below translates the schedule-building loop (app.py lines
85-126) and the worksheet projection (app.py lines 128-195) into Lean.
Monetary amounts are modelled as rationals; dates are concrete calendar
dates and the pandas `MonthEnd` offset is modelled from its documented
behaviour (roll forward to the last day of the month; when the date is
already a month end, `MonthEnd(n)` with positive `n` advances `n` month
ends).
-/

namespace LoanAmort

/-- A calendar date, as carried by the pandas timestamps in the script. -/
structure Date where
  year : Nat
  month : Nat
  day : Nat
deriving DecidableEq

/-- Gregorian leap-year rule, as implemented by the calendar library. -/
def isLeap (y : Nat) : Bool :=
  (y % 4 == 0 && y % 100 != 0) || (y % 400 == 0)

/-- Number of days of month `m` of year `y` (m is 1-based). -/
def daysInMonth (y m : Nat) : Nat :=
  if m = 2 then (if isLeap y then 29 else 28)
  else if m = 4 ∨ m = 6 ∨ m = 9 ∨ m = 11 then 30
  else 31

/-- The last day of the month whose absolute month index is `mi`
(index = year * 12 + (month - 1)). -/
def monthEndOf (mi : Nat) : Date :=
  ⟨mi / 12, mi % 12 + 1, daysInMonth (mi / 12) (mi % 12 + 1)⟩

/-- Absolute month index of a date. -/
def Date.midx (d : Date) : Nat := d.year * 12 + (d.month - 1)

/-- Model of `pd.Timestamp + MonthEnd(0)` (app.py lines 26 and 32):
roll forward to the last day of the current month, staying put when the
date already is a month end. -/
def monthEnd0 (d : Date) : Date := monthEndOf d.midx

/-- Model of `pd.Timestamp + MonthEnd(n)` (app.py line 95): a date that
is not a month end first rolls forward to its own month end (consuming
one step), after which each remaining step advances one month end. -/
def addMonthEnd (n : Nat) (d : Date) : Date :=
  if d = monthEnd0 d then monthEndOf (d.midx + n)
  else monthEndOf (d.midx + (n - 1))

/-- Total order key for dates; on calendar dates (month ≤ 12, day ≤ 31)
it agrees with chronological order, which is what the timestamp
comparison on line 106 of app.py uses. -/
def Date.toKey (d : Date) : Nat := (d.year * 12 + d.month) * 32 + d.day

/-- Chronological strict order on dates (model of `date_dt < paydown_start`). -/
def dateLt (a b : Date) : Prop := a.toKey < b.toKey

instance (a b : Date) : Decidable (dateLt a b) :=
  inferInstanceAs (Decidable (_ < _))

/-- Interest treatment radio button (app.py lines 36-39). -/
inductive InterestMode
  | capitalize
  | payCash
deriving DecidableEq

/-- Construction draw mode (app.py lines 42-58): a fixed monthly amount
or the per-month custom list `custom_draws` (entry `i` is the draw of
period `i + 1`). -/
inductive DrawMode
  | fixed (amount : ℚ)
  | custom (draws : Nat → ℚ)

/-- Paydown mode (app.py lines 61-83): fixed mode carries the number of
settlements per month and the amount per settlement, custom mode carries
the per-month list `custom_paydowns` (already multiplied out). -/
inductive PaydownMode
  | fixed (perMonth : ℚ) (amountPer : ℚ)
  | custom (amounts : Nat → ℚ)

/-- The full set of sidebar inputs feeding the schedule build. -/
structure Config where
  principal : ℚ
  annualRate : ℚ
  termMonths : Nat
  drawBase : Date
  paydownBase : Date
  interestMode : InterestMode
  drawMode : DrawMode
  paydownMode : PaydownMode

/-- `monthly_rate = annual_rate / 12` (app.py line 86). -/
def monthlyRate (c : Config) : ℚ := c.annualRate / 12

/-- `start_date = pd.to_datetime(draw_base) + MonthEnd(0)` (app.py line 26). -/
def startDate (c : Config) : Date := monthEnd0 c.drawBase

/-- `paydown_start = pd.to_datetime(paydown_base) + MonthEnd(0)` (app.py line 32). -/
def paydownStart (c : Config) : Date := monthEnd0 c.paydownBase

/-- `paydowns_per_month`: user input in fixed mode, 0 otherwise
(app.py lines 65-74). -/
def paydownsPerMonth (c : Config) : ℚ :=
  match c.paydownMode with
  | .fixed n _ => n
  | .custom _ => 0

/-- `paydown_amount`: user input in fixed mode, 0 otherwise
(app.py lines 66-74). -/
def paydownAmount (c : Config) : ℚ :=
  match c.paydownMode with
  | .fixed _ a => a
  | .custom _ => 0

/-- `draw_amt = monthly_draw if draw_mode == "Fixed amount" else custom_draws[i]`
(app.py line 99). -/
def drawAmt (c : Config) (i : Nat) : ℚ :=
  match c.drawMode with
  | .fixed a => a
  | .custom f => f i

/-- The ungated paydown of loop index `i` (app.py lines 109-112). -/
def paydownRaw (c : Config) (i : Nat) : ℚ :=
  match c.paydownMode with
  | .fixed n a => n * a
  | .custom f => f i

/-- One row appended by the loop (app.py lines 116-125). -/
structure PeriodRecord where
  period : Nat
  date : Date
  begBalance : ℚ
  constDraw : ℚ
  interestDraw : ℚ
  totalDraw : ℚ
  paydown : ℚ
  endBalance : ℚ
deriving DecidableEq

/-- Body of the schedule loop (app.py lines 93-125) for loop index `i`
(period `i + 1`) with running balance `balance`. -/
def buildRow (c : Config) (i : Nat) (balance : ℚ) : PeriodRecord :=
  let period := i + 1
  let date := addMonthEnd period (startDate c)
  let interest := balance * monthlyRate c
  let draw := drawAmt c i
  let totalDraw :=
    match c.interestMode with
    | .capitalize => draw + interest
    | .payCash => draw
  let paydown := if dateLt date (paydownStart c) then 0 else paydownRaw c i
  { period := period
    date := date
    begBalance := balance
    constDraw := draw
    interestDraw := interest
    totalDraw := totalDraw
    paydown := paydown
    endBalance := balance + totalDraw - paydown }

/-- The loop of app.py lines 93-126, started at loop index `i` with
balance `bal` and `fuel` iterations remaining. -/
def buildFrom (c : Config) : Nat → ℚ → Nat → List PeriodRecord
  | _, _, 0 => []
  | i, bal, fuel + 1 =>
      buildRow c i bal :: buildFrom c (i + 1) (buildRow c i bal).endBalance fuel

/-- The full schedule `rows` (app.py lines 90-126). -/
def schedule (c : Config) : List PeriodRecord :=
  buildFrom c 0 c.principal c.termMonths

/-- The running balance at the top of loop iteration `k` (balance before
period `k + 1`). -/
def balAt (c : Config) : Nat → ℚ
  | 0 => c.principal
  | k + 1 => (buildRow c k (balAt c k)).endBalance

/-- The record emitted at loop index `k`. -/
def recAt (c : Config) (k : Nat) : PeriodRecord := buildRow c k (balAt c k)

theorem buildRow_begBalance (c : Config) (i : Nat) (b : ℚ) :
    (buildRow c i b).begBalance = b := rfl

theorem buildRow_period (c : Config) (i : Nat) (b : ℚ) :
    (buildRow c i b).period = i + 1 := rfl

theorem buildRow_date (c : Config) (i : Nat) (b : ℚ) :
    (buildRow c i b).date = addMonthEnd (i + 1) (startDate c) := rfl

theorem buildRow_constDraw (c : Config) (i : Nat) (b : ℚ) :
    (buildRow c i b).constDraw = drawAmt c i := rfl

theorem buildRow_interestDraw (c : Config) (i : Nat) (b : ℚ) :
    (buildRow c i b).interestDraw = b * monthlyRate c := rfl

theorem buildRow_totalDraw (c : Config) (i : Nat) (b : ℚ) :
    (buildRow c i b).totalDraw =
      match c.interestMode with
      | .capitalize => drawAmt c i + b * monthlyRate c
      | .payCash => drawAmt c i := rfl

theorem buildRow_paydown (c : Config) (i : Nat) (b : ℚ) :
    (buildRow c i b).paydown =
      if dateLt (addMonthEnd (i + 1) (startDate c)) (paydownStart c) then 0
      else paydownRaw c i := rfl

theorem buildRow_endBalance (c : Config) (i : Nat) (b : ℚ) :
    (buildRow c i b).endBalance =
      b + (buildRow c i b).totalDraw - (buildRow c i b).paydown := rfl

theorem buildFrom_length (c : Config) :
    ∀ fuel i bal, (buildFrom c i bal fuel).length = fuel := by
  intro fuel
  induction fuel with
  | zero => intro i bal; rfl
  | succ n ih => intro i bal; simp [buildFrom, ih]

/-- The schedule has exactly `term_months` rows. -/
theorem schedule_length (c : Config) : (schedule c).length = c.termMonths :=
  buildFrom_length c c.termMonths 0 c.principal

/-- The balance threaded from loop index `i` with start balance `bal`
after `k` further iterations. -/
def balFrom (c : Config) : Nat → ℚ → Nat → ℚ
  | _, bal, 0 => bal
  | i, bal, k + 1 => balFrom c (i + 1) (buildRow c i bal).endBalance k

theorem balFrom_succ (c : Config) :
    ∀ k i bal, balFrom c i bal (k + 1) =
      (buildRow c (i + k) (balFrom c i bal k)).endBalance := by
  intro k
  induction k with
  | zero => intro i bal; rfl
  | succ n ih =>
      intro i bal
      show balFrom c (i + 1) (buildRow c i bal).endBalance (n + 1) = _
      rw [ih]
      have h : i + 1 + n = i + (n + 1) := by omega
      rw [h]
      rfl

theorem balFrom_balAt (c : Config) : ∀ k, balFrom c 0 c.principal k = balAt c k := by
  intro k
  induction k with
  | zero => rfl
  | succ n ih =>
      rw [balFrom_succ]
      show (buildRow c (0 + n) (balFrom c 0 c.principal n)).endBalance = _
      rw [ih]
      have h : 0 + n = n := by omega
      rw [h]
      rfl

theorem buildFrom_get (c : Config) :
    ∀ k i bal fuel, k < fuel →
      (buildFrom c i bal fuel).get? k =
        some (buildRow c (i + k) (balFrom c i bal k)) := by
  intro k
  induction k with
  | zero =>
      intro i bal fuel hf
      match fuel, hf with
      | f + 1, _ => rfl
  | succ n ih =>
      intro i bal fuel hf
      match fuel, hf with
      | f + 1, hf =>
          show (buildFrom c (i + 1) (buildRow c i bal).endBalance f).get? n = _
          rw [ih (i + 1) (buildRow c i bal).endBalance f (by omega)]
          have h : i + 1 + n = i + (n + 1) := by omega
          rw [h]
          rfl

/-- Row `k` of the schedule (0-based) is the record of period `k + 1`
computed from the running balance `balAt c k`. -/
theorem schedule_get (c : Config) (k : Nat) (hk : k < c.termMonths) :
    (schedule c).get? k = some (recAt c k) := by
  show (buildFrom c 0 c.principal c.termMonths).get? k = _
  rw [buildFrom_get c k 0 c.principal c.termMonths hk, balFrom_balAt]
  have h : 0 + k = k := by omega
  rw [h]
  rfl

/-- Inversion: an answered lookup pins the index below the term and the
record to `recAt`. -/
theorem schedule_get_inv (c : Config) (k : Nat) (r : PeriodRecord)
    (h : (schedule c).get? k = some r) :
    k < c.termMonths ∧ r = recAt c k := by
  by_cases hk : k < c.termMonths
  · refine ⟨hk, ?_⟩
    rw [schedule_get c k hk] at h
    exact (Option.some.injEq _ _).mp h.symm
  · exfalso
    have hlen : (schedule c).length ≤ k := by
      rw [schedule_length]; omega
    rw [List.get?_eq_none.mpr hlen] at h
    exact Option.noConfusion h

/-- Every member of a `buildFrom` segment is some `buildRow`. -/
theorem mem_buildFrom (c : Config) :
    ∀ fuel i bal r, r ∈ buildFrom c i bal fuel → ∃ j b, r = buildRow c j b := by
  intro fuel
  induction fuel with
  | zero => intro i bal r hr; exact absurd hr (List.not_mem_nil r)
  | succ n ih =>
      intro i bal r hr
      rcases List.mem_cons.mp hr with h | h
      · exact ⟨i, bal, h⟩
      · exact ih (i + 1) (buildRow c i bal).endBalance r h

theorem mem_schedule (c : Config) (r : PeriodRecord) (hr : r ∈ schedule c) :
    ∃ j b, r = buildRow c j b :=
  mem_buildFrom c c.termMonths 0 c.principal r hr

/-! ## Worksheet projection (app.py lines 128-195)

Cell coordinates are 0-based (row, col) exactly as passed to the
xlsxwriter `write*` calls; the formula strings of the script use 1-based
Excel rows, so a formula mentioning Excel row `r` refers to grid row
`r - 1`. -/

/-- The formula shapes emitted by app.py, with the 1-based Excel row
numbers they mention. -/
inductive Formula
  | divB1By12
  | refH (r : Nat)
  | mulB2 (r : Nat)
  | addDE (r : Nat)
  | refD (r : Nat)
  | b5b6
  | endBalF (r : Nat)
  | sumInt (a b : Nat)
deriving DecidableEq

/-- The exact formula strings written by the script. -/
def render : Formula → String
  | .divB1By12 => (r"=B1/12")
  | .refH r => (r"=H") ++ toString r
  | .mulB2 r => (r"=C") ++ toString r ++ (r"*$B$2")
  | .addDE r => (r"=D") ++ toString r ++ (r"+E") ++ toString r
  | .refD r => (r"=D") ++ toString r
  | .b5b6 => (r"=$B$5*$B$6")
  | .endBalF r => (r"=C") ++ toString r ++ (r"+F") ++ toString r ++ (r"-G") ++ toString r
  | .sumInt a b => (r"=SUM(E") ++ toString a ++ (r":E") ++ toString b ++ (r")")

/-- A written worksheet cell. -/
inductive Cell
  | literal (v : ℚ)
  | formula (f : Formula)
  | datetime (d : Date)
  | text (s : String)
deriving DecidableEq

/-- Whether a cell is a literal numeric value. -/
def Cell.isLit : Cell → Bool
  | .literal _ => true
  | _ => false

/-- The label written next to the interest-treatment summary cell. -/
def interestLabel : InterestMode → String
  | .capitalize => (r"Capitalize interest into loan")
  | .payCash => (r"Pay interest out of cash")

/-- The summary block, rows 0-5 (app.py lines 143-154). -/
def summaryCell (c : Config) (row col : Nat) : Option Cell :=
  match row, col with
  | 0, 0 => some (.text (r"Annual Rate"))
  | 0, 1 => some (.literal c.annualRate)
  | 1, 0 => some (.text (r"Monthly Rate (=B1/12)"))
  | 1, 1 => some (.formula .divB1By12)
  | 2, 0 => some (.text (r"Term (months)"))
  | 2, 1 => some (.literal (c.termMonths : ℚ))
  | 3, 0 => some (.text (r"Interest treatment"))
  | 3, 1 => some (.text (interestLabel c.interestMode))
  | 4, 0 => some (.text (r"Settlements/month"))
  | 4, 1 => some (.literal (paydownsPerMonth c))
  | 5, 0 => some (.text (r"Amount/settlement"))
  | 5, 1 => some (.literal (paydownAmount c))
  | _, _ => none

/-- Header titles of row 7 (app.py lines 159-160). -/
def headerTitles : List String :=
  [r"Period", r"Date", r"Beg Balance", r"Const. Draw",
   r"Interest Draw", r"Total Draw", r"Paydown", r"End Balance"]

/-- The cells of the data row of loop index `idx` (grid row `8 + idx`,
Excel row `9 + idx`), from app.py lines 165-188. -/
def dataCell (c : Config) (rec : PeriodRecord) (idx col : Nat) : Option Cell :=
  match col with
  | 0 => some (.literal (rec.period : ℚ))
  | 1 => some (.datetime rec.date)
  | 2 =>
      if idx = 0 then some (.literal c.principal)
      else some (.formula (.refH (8 + idx)))
  | 3 => some (.literal rec.constDraw)
  | 4 => some (.formula (.mulB2 (9 + idx)))
  | 5 =>
      match c.interestMode with
      | .capitalize => some (.formula (.addDE (9 + idx)))
      | .payCash => some (.formula (.refD (9 + idx)))
  | 6 =>
      match c.paydownMode with
      | .fixed _ _ => some (.formula .b5b6)
      | .custom _ => some (.literal rec.paydown)
  | 7 => some (.formula (.endBalF (9 + idx)))
  | _ => none

/-- The whole Schedule worksheet as written by app.py lines 142-195. -/
def grid (c : Config) (row col : Nat) : Option Cell :=
  if row ≤ 5 then summaryCell c row col
  else if row = 7 then
    (if col < 8 then some (.text (headerTitles.getD col (r""))) else none)
  else if 8 ≤ row ∧ row < 8 + c.termMonths then
    match (schedule c).get? (row - 8) with
    | some rec => dataCell c rec (row - 8) col
    | none => none
  else if row = 8 + c.termMonths then
    (if col = 3 then some (.text (r"Total Interest:"))
     else if col = 4 then some (.formula (.sumInt 9 (8 + c.termMonths)))
     else none)
  else none

/-- Spreadsheet semantics of the emitted formulas under a valuation `V`
of the numeric cells (V row col, 0-based coordinates). -/
def evalFormula (V : Nat → Nat → ℚ) : Formula → ℚ
  | .divB1By12 => V 0 1 / 12
  | .refH r => V (r - 1) 7
  | .mulB2 r => V (r - 1) 2 * V 1 1
  | .addDE r => V (r - 1) 3 + V (r - 1) 4
  | .refD r => V (r - 1) 3
  | .b5b6 => V 4 1 * V 5 1
  | .endBalF r => V (r - 1) 2 + V (r - 1) 5 - V (r - 1) 6
  | .sumInt a b => ((List.range (b + 1 - a)).map (fun k => V (a - 1 + k) 4)).sum

/-- A valuation is consistent with the worksheet when every literal cell
carries its written value and every formula cell carries the value of
its formula; this is what a spreadsheet engine computes, since the
written references are acyclic. -/
def SatisfiesGrid (c : Config) (V : Nat → Nat → ℚ) : Prop :=
  ∀ row col,
    match grid c row col with
    | some (Cell.literal v) => V row col = v
    | some (Cell.formula f) => V row col = evalFormula V f
    | _ => True

/-! ## Grid lemmas -/

theorem recAt_mem (c : Config) (k : Nat) (hk : k < c.termMonths) :
    recAt c k ∈ schedule c :=
  List.get?_mem (schedule_get c k hk)

/-- In fixed paydown mode, no record of the schedule is date-gated (its
date is not before the paydown start); in custom mode no condition. -/
def UngatedFixed (c : Config) : Prop :=
  match c.paydownMode with
  | .fixed _ _ => ∀ r ∈ schedule c, ¬ dateLt r.date (paydownStart c)
  | .custom _ => True

theorem dataCell_two_succ (c : Config) (rec : PeriodRecord) (k : Nat) :
    dataCell c rec (k + 1) 2 = some (Cell.formula (Formula.refH (8 + (k + 1)))) := by
  show (if k + 1 = 0 then some (Cell.literal c.principal)
        else some (Cell.formula (Formula.refH (8 + (k + 1))))) = _
  rw [if_neg (Nat.succ_ne_zero k)]

theorem dataCell_five_cap (c : Config) (rec : PeriodRecord) (k : Nat)
    (h : c.interestMode = .capitalize) :
    dataCell c rec k 5 = some (Cell.formula (Formula.addDE (9 + k))) := by
  show (match c.interestMode with
        | InterestMode.capitalize => some (Cell.formula (Formula.addDE (9 + k)))
        | InterestMode.payCash => some (Cell.formula (Formula.refD (9 + k)))) = _
  rw [h]

theorem dataCell_five_pay (c : Config) (rec : PeriodRecord) (k : Nat)
    (h : c.interestMode = .payCash) :
    dataCell c rec k 5 = some (Cell.formula (Formula.refD (9 + k))) := by
  show (match c.interestMode with
        | InterestMode.capitalize => some (Cell.formula (Formula.addDE (9 + k)))
        | InterestMode.payCash => some (Cell.formula (Formula.refD (9 + k)))) = _
  rw [h]

theorem dataCell_six_fixed (c : Config) (rec : PeriodRecord) (k : Nat) (n a : ℚ)
    (h : c.paydownMode = .fixed n a) :
    dataCell c rec k 6 = some (Cell.formula Formula.b5b6) := by
  show (match c.paydownMode with
        | PaydownMode.fixed _ _ => some (Cell.formula Formula.b5b6)
        | PaydownMode.custom _ => some (Cell.literal rec.paydown)) = _
  rw [h]

theorem dataCell_six_custom (c : Config) (rec : PeriodRecord) (k : Nat) (f : Nat → ℚ)
    (h : c.paydownMode = .custom f) :
    dataCell c rec k 6 = some (Cell.literal rec.paydown) := by
  show (match c.paydownMode with
        | PaydownMode.fixed _ _ => some (Cell.formula Formula.b5b6)
        | PaydownMode.custom _ => some (Cell.literal rec.paydown)) = _
  rw [h]

/-- Row `8 + k` of the worksheet is the data row of loop index `k`. -/
theorem grid_data (c : Config) (k col : Nat) (hk : k < c.termMonths) :
    grid c (8 + k) col = dataCell c (recAt c k) k col := by
  unfold grid
  rw [if_neg (by omega : ¬ 8 + k ≤ 5), if_neg (by omega : ¬ 8 + k = 7),
    if_pos (⟨by omega, by omega⟩ : 8 ≤ 8 + k ∧ 8 + k < 8 + c.termMonths)]
  have h8 : 8 + k - 8 = k := by omega
  rw [h8, schedule_get c k hk]

theorem ungated_paydown (c : Config) (hpd : UngatedFixed c) (n a : ℚ)
    (hm : c.paydownMode = .fixed n a) (k : Nat) (hk : k < c.termMonths) :
    (recAt c k).paydown = n * a := by
  have hall : ∀ r ∈ schedule c, ¬ dateLt r.date (paydownStart c) := by
    unfold UngatedFixed at hpd
    rw [hm] at hpd
    exact hpd
  have hng : ¬ dateLt (addMonthEnd (k + 1) (startDate c)) (paydownStart c) :=
    hall (recAt c k) (recAt_mem c k hk)
  show (buildRow c k (balAt c k)).paydown = n * a
  rw [buildRow_paydown, if_neg hng]
  show (match c.paydownMode with
        | PaydownMode.fixed n2 a2 => n2 * a2
        | PaydownMode.custom f => f k) = n * a
  rw [hm]

theorem paydownsPerMonth_fixed (c : Config) (n a : ℚ) (hm : c.paydownMode = .fixed n a) :
    paydownsPerMonth c = n := by
  show (match c.paydownMode with
        | PaydownMode.fixed n2 _ => n2
        | PaydownMode.custom _ => 0) = n
  rw [hm]

theorem paydownAmount_fixed (c : Config) (n a : ℚ) (hm : c.paydownMode = .fixed n a) :
    paydownAmount c = a := by
  show (match c.paydownMode with
        | PaydownMode.fixed _ a2 => a2
        | PaydownMode.custom _ => 0) = a
  rw [hm]

/-- Any valuation consistent with the worksheet assigns, to the five
dependent columns of data row `k`, values determined by that row's
beginning-balance cell. -/
theorem row_vals_of_beg (c : Config) (V : Nat → Nat → ℚ) (hV : SatisfiesGrid c V)
    (hpd : UngatedFixed c) (k : Nat) (hk : k < c.termMonths)
    (hbeg : V (8 + k) 2 = (recAt c k).begBalance) :
    V (8 + k) 3 = (recAt c k).constDraw ∧
    V (8 + k) 4 = (recAt c k).interestDraw ∧
    V (8 + k) 5 = (recAt c k).totalDraw ∧
    V (8 + k) 6 = (recAt c k).paydown ∧
    V (8 + k) 7 = (recAt c k).endBalance := by
  have h01 : V 0 1 = c.annualRate := hV 0 1
  have h11 : V 1 1 = V 0 1 / 12 := hV 1 1
  have h41 : V 4 1 = paydownsPerMonth c := hV 4 1
  have h51 : V 5 1 = paydownAmount c := hV 5 1
  have hsub : 9 + k - 1 = 8 + k := by omega
  have hD : V (8 + k) 3 = (recAt c k).constDraw := by
    have h := hV (8 + k) 3
    rw [grid_data c k 3 hk] at h
    exact h
  have hE : V (8 + k) 4 = (recAt c k).interestDraw := by
    have h := hV (8 + k) 4
    rw [grid_data c k 4 hk] at h
    have h2 : V (8 + k) 4 = V (9 + k - 1) 2 * V 1 1 := h
    rw [hsub, hbeg, h11, h01] at h2
    exact h2
  have hF : V (8 + k) 5 = (recAt c k).totalDraw := by
    have h := hV (8 + k) 5
    rw [grid_data c k 5 hk] at h
    cases hmode : c.interestMode with
    | capitalize =>
        rw [dataCell_five_cap c (recAt c k) k hmode] at h
        have h2 : V (8 + k) 5 = V (9 + k - 1) 3 + V (9 + k - 1) 4 := h
        rw [hsub, hD, hE] at h2
        have h3 : (recAt c k).totalDraw = (recAt c k).constDraw + (recAt c k).interestDraw := by
          show (buildRow c k (balAt c k)).totalDraw = _
          rw [buildRow_totalDraw, hmode]
          rfl
        rw [h3]
        exact h2
    | payCash =>
        rw [dataCell_five_pay c (recAt c k) k hmode] at h
        have h2 : V (8 + k) 5 = V (9 + k - 1) 3 := h
        rw [hsub, hD] at h2
        have h3 : (recAt c k).totalDraw = (recAt c k).constDraw := by
          show (buildRow c k (balAt c k)).totalDraw = _
          rw [buildRow_totalDraw, hmode]
          rfl
        rw [h3]
        exact h2
  have hG : V (8 + k) 6 = (recAt c k).paydown := by
    have h := hV (8 + k) 6
    rw [grid_data c k 6 hk] at h
    cases hm : c.paydownMode with
    | fixed n a =>
        rw [dataCell_six_fixed c (recAt c k) k n a hm] at h
        have h2 : V (8 + k) 6 = V 4 1 * V 5 1 := h
        rw [h41, h51, paydownsPerMonth_fixed c n a hm, paydownAmount_fixed c n a hm] at h2
        rw [h2, ungated_paydown c hpd n a hm k hk]
    | custom f =>
        rw [dataCell_six_custom c (recAt c k) k f hm] at h
        exact h
  have hH : V (8 + k) 7 = (recAt c k).endBalance := by
    have h := hV (8 + k) 7
    rw [grid_data c k 7 hk] at h
    have h2 : V (8 + k) 7 = V (9 + k - 1) 2 + V (9 + k - 1) 5 - V (9 + k - 1) 6 := h
    rw [hsub, hbeg, hF, hG] at h2
    exact h2
  exact ⟨hD, hE, hF, hG, hH⟩

/-- Any valuation consistent with the worksheet reproduces, on every
data row, exactly the fields of the corresponding record. -/
theorem satisfies_grid_vals (c : Config) (V : Nat → Nat → ℚ) (hV : SatisfiesGrid c V)
    (hpd : UngatedFixed c) :
    ∀ k, k < c.termMonths →
      V (8 + k) 2 = (recAt c k).begBalance ∧
      V (8 + k) 3 = (recAt c k).constDraw ∧
      V (8 + k) 4 = (recAt c k).interestDraw ∧
      V (8 + k) 5 = (recAt c k).totalDraw ∧
      V (8 + k) 6 = (recAt c k).paydown ∧
      V (8 + k) 7 = (recAt c k).endBalance := by
  intro k
  induction k with
  | zero =>
      intro hk
      have hbeg : V (8 + 0) 2 = (recAt c 0).begBalance := by
        have h := hV (8 + 0) 2
        rw [grid_data c 0 2 hk] at h
        exact h
      obtain ⟨hD, hE, hF, hG, hH⟩ := row_vals_of_beg c V hV hpd 0 hk hbeg
      exact ⟨hbeg, hD, hE, hF, hG, hH⟩
  | succ k ih =>
      intro hk
      have hk2 : k < c.termMonths := by omega
      obtain ⟨_, _, _, _, _, hH⟩ := ih hk2
      have hbeg : V (8 + (k + 1)) 2 = (recAt c (k + 1)).begBalance := by
        have h := hV (8 + (k + 1)) 2
        rw [grid_data c (k + 1) 2 hk, dataCell_two_succ c (recAt c (k + 1)) k] at h
        have h2 : V (8 + (k + 1)) 2 = V (8 + (k + 1) - 1) 7 := h
        have hsub : 8 + (k + 1) - 1 = 8 + k := by omega
        rw [hsub, hH] at h2
        exact h2
      obtain ⟨hD, hE, hF, hG, hH2⟩ := row_vals_of_beg c V hV hpd (k + 1) hk hbeg
      exact ⟨hbeg, hD, hE, hF, hG, hH2⟩

/-- The intended value of data-row cell (idx, col): the record field the
column displays. -/
def dataVal (c : Config) (idx col : Nat) : ℚ :=
  match col with
  | 0 => ((recAt c idx).period : ℚ)
  | 2 => (recAt c idx).begBalance
  | 3 => (recAt c idx).constDraw
  | 4 => (recAt c idx).interestDraw
  | 5 => (recAt c idx).totalDraw
  | 6 => (recAt c idx).paydown
  | 7 => (recAt c idx).endBalance
  | _ => 0

/-- Total interest over the schedule (the value of the trailing SUM cell). -/
def sumInterestVal (c : Config) : ℚ :=
  ((List.range c.termMonths).map (fun k => (recAt c k).interestDraw)).sum

/-- The reference valuation of the worksheet: every numeric cell gets
the value of the record field (or summary quantity) it displays. -/
def sheetVal (c : Config) (row col : Nat) : ℚ :=
  if row = 0 ∧ col = 1 then c.annualRate
  else if row = 1 ∧ col = 1 then c.annualRate / 12
  else if row = 2 ∧ col = 1 then (c.termMonths : ℚ)
  else if row = 4 ∧ col = 1 then paydownsPerMonth c
  else if row = 5 ∧ col = 1 then paydownAmount c
  else if 8 ≤ row ∧ row < 8 + c.termMonths then dataVal c (row - 8) col
  else if row = 8 + c.termMonths ∧ col = 4 then sumInterestVal c
  else 0

theorem sheetVal_data (c : Config) (row col : Nat) (h8 : 8 ≤ row)
    (hlt : row < 8 + c.termMonths) :
    sheetVal c row col = dataVal c (row - 8) col := by
  unfold sheetVal
  rw [if_neg (by omega : ¬ (row = 0 ∧ col = 1)),
    if_neg (by omega : ¬ (row = 1 ∧ col = 1)),
    if_neg (by omega : ¬ (row = 2 ∧ col = 1)),
    if_neg (by omega : ¬ (row = 4 ∧ col = 1)),
    if_neg (by omega : ¬ (row = 5 ∧ col = 1)),
    if_pos ⟨h8, hlt⟩]

theorem sheetVal_sum_row (c : Config) :
    sheetVal c (8 + c.termMonths) 4 = sumInterestVal c := by
  unfold sheetVal
  rw [if_neg (by omega : ¬ (8 + c.termMonths = 0 ∧ 4 = 1)),
    if_neg (by omega : ¬ (8 + c.termMonths = 1 ∧ 4 = 1)),
    if_neg (by omega : ¬ (8 + c.termMonths = 2 ∧ 4 = 1)),
    if_neg (by omega : ¬ (8 + c.termMonths = 4 ∧ 4 = 1)),
    if_neg (by omega : ¬ (8 + c.termMonths = 5 ∧ 4 = 1)),
    if_neg (by omega : ¬ (8 ≤ 8 + c.termMonths ∧ 8 + c.termMonths < 8 + c.termMonths)),
    if_pos ⟨rfl, rfl⟩]

theorem sheetVal_range_sum (c : Config) :
    ∀ n, n ≤ c.termMonths →
      ((List.range n).map (fun j => sheetVal c (8 + j) 4)).sum =
        ((List.range n).map (fun j => (recAt c j).interestDraw)).sum := by
  intro n
  induction n with
  | zero => intro _; rfl
  | succ m ih =>
      intro hm
      rw [List.range_succ, List.map_append, List.map_append,
        List.sum_append, List.sum_append, ih (by omega)]
      have hv : sheetVal c (8 + m) 4 = (recAt c m).interestDraw := by
        rw [sheetVal_data c (8 + m) 4 (by omega) (by omega)]
        have h8 : 8 + m - 8 = m := by omega
        rw [h8]
        rfl
      simp [hv]

/-- The reference valuation is consistent with every literal and every
formula cell of the worksheet, provided no fixed-mode paydown row is
date-gated. -/
theorem sheetVal_satisfies (c : Config) (hpd : UngatedFixed c) :
    SatisfiesGrid c (sheetVal c) := by
  intro row col
  unfold grid
  by_cases h5 : row ≤ 5
  · rw [if_pos h5]
    interval_cases row <;> rcases col with _ | _ | col <;>
      simp [summaryCell, sheetVal, evalFormula]
  · rw [if_neg h5]
    by_cases h7 : row = 7
    · rw [if_pos h7]
      by_cases hc : col < 8
      · rw [if_pos hc]; trivial
      · rw [if_neg hc]; trivial
    · rw [if_neg h7]
      by_cases hd : 8 ≤ row ∧ row < 8 + c.termMonths
      · rw [if_pos hd]
        obtain ⟨k, rfl⟩ : ∃ k, row = 8 + k := ⟨row - 8, by omega⟩
        have hk : k < c.termMonths := by omega
        have h8 : 8 + k - 8 = k := by omega
        rw [h8, schedule_get c k hk]
        have hdat : ∀ c2, sheetVal c (8 + k) c2 = dataVal c k c2 := by
          intro c2
          rw [sheetVal_data c (8 + k) c2 (by omega) (by omega), h8]
        show (match dataCell c (recAt c k) k col with
          | some (Cell.literal v) => sheetVal c (8 + k) col = v
          | some (Cell.formula f) => sheetVal c (8 + k) col = evalFormula (sheetVal c) f
          | _ => True)
        match col with
        | 0 => exact hdat 0
        | 1 => trivial
        | 2 =>
            match k, hk with
            | 0, hk => exact hdat 2
            | j + 1, hk =>
                rw [dataCell_two_succ c (recAt c (j + 1)) j]
                show sheetVal c (8 + (j + 1)) 2 = sheetVal c (8 + (j + 1) - 1) 7
                have hs : 8 + (j + 1) - 1 = 8 + j := by omega
                rw [hs, hdat 2, sheetVal_data c (8 + j) 7 (by omega) (by omega)]
                have h82 : 8 + j - 8 = j := by omega
                rw [h82]
                rfl
        | 3 => exact hdat 3
        | 4 =>
            show sheetVal c (8 + k) 4 = sheetVal c (9 + k - 1) 2 * sheetVal c 1 1
            have hs : 9 + k - 1 = 8 + k := by omega
            have h11 : sheetVal c 1 1 = c.annualRate / 12 := by
              simp [sheetVal]
            rw [hs, h11, hdat 4, hdat 2]
            rfl
        | 5 =>
            cases hmode : c.interestMode with
            | capitalize =>
                rw [dataCell_five_cap c (recAt c k) k hmode]
                show sheetVal c (8 + k) 5 = sheetVal c (9 + k - 1) 3 + sheetVal c (9 + k - 1) 4
                have hs : 9 + k - 1 = 8 + k := by omega
                rw [hs, hdat 5, hdat 3, hdat 4]
                show (buildRow c k (balAt c k)).totalDraw = _
                rw [buildRow_totalDraw, hmode]
                rfl
            | payCash =>
                rw [dataCell_five_pay c (recAt c k) k hmode]
                show sheetVal c (8 + k) 5 = sheetVal c (9 + k - 1) 3
                have hs : 9 + k - 1 = 8 + k := by omega
                rw [hs, hdat 5, hdat 3]
                show (buildRow c k (balAt c k)).totalDraw = _
                rw [buildRow_totalDraw, hmode]
                rfl
        | 6 =>
            cases hm : c.paydownMode with
            | fixed n a =>
                rw [dataCell_six_fixed c (recAt c k) k n a hm]
                show sheetVal c (8 + k) 6 = sheetVal c 4 1 * sheetVal c 5 1
                have h41 : sheetVal c 4 1 = paydownsPerMonth c := by
                  simp [sheetVal]
                have h51 : sheetVal c 5 1 = paydownAmount c := by
                  simp [sheetVal]
                rw [h41, h51, paydownsPerMonth_fixed c n a hm, paydownAmount_fixed c n a hm,
                  hdat 6]
                show (recAt c k).paydown = n * a
                exact ungated_paydown c hpd n a hm k hk
            | custom f =>
                rw [dataCell_six_custom c (recAt c k) k f hm]
                exact hdat 6
        | 7 =>
            show sheetVal c (8 + k) 7 =
              sheetVal c (9 + k - 1) 2 + sheetVal c (9 + k - 1) 5 - sheetVal c (9 + k - 1) 6
            have hs : 9 + k - 1 = 8 + k := by omega
            rw [hs, hdat 7, hdat 2, hdat 5, hdat 6]
            rfl
        | n + 8 => trivial
      · rw [if_neg hd]
        by_cases hs : row = 8 + c.termMonths
        · rw [if_pos hs]
          by_cases h3 : col = 3
          · rw [if_pos h3]; trivial
          · rw [if_neg h3]
            by_cases h4 : col = 4
            · rw [if_pos h4]
              subst hs h4
              show sheetVal c (8 + c.termMonths) 4 =
                ((List.range (8 + c.termMonths + 1 - 9)).map
                  (fun j => sheetVal c (9 - 1 + j) 4)).sum
              have ht : 8 + c.termMonths + 1 - 9 = c.termMonths := by omega
              have hj : (fun j => sheetVal c (9 - 1 + j) 4) =
                  (fun j => sheetVal c (8 + j) 4) := rfl
              rw [ht, hj, sheetVal_range_sum c c.termMonths (le_refl _),
                sheetVal_sum_row]
              rfl
            · rw [if_neg h4]; trivial
        · rw [if_neg hs]; trivial

/-! ## Calendar lemmas -/

theorem monthEndOf_midx (mi : Nat) : (monthEndOf mi).midx = mi := by
  show mi / 12 * 12 + (mi % 12 + 1 - 1) = mi
  omega

theorem daysInMonth_le (y m : Nat) : daysInMonth y m ≤ 31 := by
  unfold daysInMonth
  split_ifs <;> omega

theorem toKey_monthEndOf (mi : Nat) :
    (monthEndOf mi).toKey = (mi + 1) * 32 + daysInMonth (mi / 12) (mi % 12 + 1) := by
  show (mi / 12 * 12 + (mi % 12 + 1)) * 32 + _ = _
  have h : mi / 12 * 12 + (mi % 12 + 1) = mi + 1 := by omega
  rw [h]
  rfl

theorem monthEndOf_dateLt (mi mj : Nat) (h : mi < mj) :
    dateLt (monthEndOf mi) (monthEndOf mj) := by
  show (monthEndOf mi).toKey < (monthEndOf mj).toKey
  rw [toKey_monthEndOf, toKey_monthEndOf]
  have h1 := daysInMonth_le (mi / 12) (mi % 12 + 1)
  have h2 := daysInMonth_le (mj / 12) (mj % 12 + 1)
  omega

theorem monthEnd0_idem (d : Date) : monthEnd0 (monthEnd0 d) = monthEnd0 d := by
  show monthEndOf (monthEndOf d.midx).midx = monthEndOf d.midx
  rw [monthEndOf_midx]

theorem addMonthEnd_monthEnd0 (n : Nat) (d : Date) :
    addMonthEnd n (monthEnd0 d) = monthEndOf (d.midx + n) := by
  unfold addMonthEnd
  rw [if_pos (monthEnd0_idem d).symm]
  show monthEndOf ((monthEndOf d.midx).midx + n) = _
  rw [monthEndOf_midx]

/-! ## Claims -/

/-- C2: for every record of every generated schedule,
ending balance = beginning balance + total draw - paydown, and the total
draw adds the interest draw to the construction draw exactly when
interest is capitalized. -/
theorem c2_balance_identity (c : Config) (r : PeriodRecord) (hr : r ∈ schedule c) :
    r.endBalance = r.begBalance + r.totalDraw - r.paydown ∧
    (c.interestMode = .capitalize → r.totalDraw = r.constDraw + r.interestDraw) ∧
    (c.interestMode = .payCash → r.totalDraw = r.constDraw) := by
  obtain ⟨j, b, rfl⟩ := mem_schedule c r hr
  refine ⟨rfl, ?_, ?_⟩
  · intro h
    rw [buildRow_totalDraw, buildRow_constDraw, buildRow_interestDraw, h]
  · intro h
    rw [buildRow_totalDraw, buildRow_constDraw, h]

def cfgW2 : Config :=
  { principal := 1000, annualRate := 6/100, termMonths := 2,
    drawBase := ⟨2025, 1, 10⟩, paydownBase := ⟨2025, 1, 10⟩,
    interestMode := .payCash, drawMode := .fixed 50, paydownMode := .fixed 2 10 }

theorem c2_balance_identity_witness :
    recAt cfgW2 0 ∈ schedule cfgW2 ∧
    (recAt cfgW2 0).endBalance =
      (recAt cfgW2 0).begBalance + (recAt cfgW2 0).totalDraw - (recAt cfgW2 0).paydown := by
  have hmem := recAt_mem cfgW2 0 (by decide)
  exact ⟨hmem, (c2_balance_identity cfgW2 _ hmem).1⟩

/-- C3: the schedule has exactly term_months records, the first record
starts at the principal, and ending balances chain into the next
beginning balance. -/
theorem c3_schedule_shape (c : Config) :
    (schedule c).length = c.termMonths ∧
    (∀ r, (schedule c).get? 0 = some r → r.begBalance = c.principal) ∧
    (∀ k r r2, (schedule c).get? k = some r → (schedule c).get? (k + 1) = some r2 →
      r.endBalance = r2.begBalance) := by
  refine ⟨schedule_length c, ?_, ?_⟩
  · intro r h
    obtain ⟨hk, rfl⟩ := schedule_get_inv c 0 r h
    rfl
  · intro k r r2 h h2
    obtain ⟨hk, rfl⟩ := schedule_get_inv c k r h
    obtain ⟨hk2, rfl⟩ := schedule_get_inv c (k + 1) r2 h2
    rfl

theorem c3_schedule_shape_witness :
    (schedule cfgW2).length = 2 ∧
    (recAt cfgW2 0).endBalance = (recAt cfgW2 1).begBalance :=
  ⟨(c3_schedule_shape cfgW2).1,
    (c3_schedule_shape cfgW2).2.2 0 _ _
      (schedule_get cfgW2 0 (by decide)) (schedule_get cfgW2 1 (by decide))⟩

/-- C4: record k (0-based) carries the last calendar day of the month
k + 1 months after the month of the anchor date, the day really is the
month length, consecutive records have strictly increasing dates, and
their absolute month indices advance by exactly one (no month skipped or
duplicated, across year boundaries and leap years alike). -/
theorem c4_calendar_dates (c : Config) (k : Nat) (r : PeriodRecord)
    (h : (schedule c).get? k = some r) :
    r.date = monthEndOf (c.drawBase.midx + (k + 1)) ∧
    r.date.day = daysInMonth r.date.year r.date.month ∧
    (∀ r2, (schedule c).get? (k + 1) = some r2 →
      dateLt r.date r2.date ∧ r2.date.midx = r.date.midx + 1) := by
  obtain ⟨hk, rfl⟩ := schedule_get_inv c k r h
  have hdate : (recAt c k).date = monthEndOf (c.drawBase.midx + (k + 1)) := by
    show addMonthEnd (k + 1) (startDate c) = _
    rw [startDate, addMonthEnd_monthEnd0]
  refine ⟨hdate, ?_, ?_⟩
  · rw [hdate]; rfl
  · intro r2 h2
    obtain ⟨hk2, rfl⟩ := schedule_get_inv c (k + 1) r2 h2
    have hdate2 : (recAt c (k + 1)).date = monthEndOf (c.drawBase.midx + (k + 2)) := by
      show addMonthEnd (k + 2) (startDate c) = _
      rw [startDate, addMonthEnd_monthEnd0]
    rw [hdate, hdate2]
    constructor
    · exact monthEndOf_dateLt _ _ (by omega)
    · rw [monthEndOf_midx, monthEndOf_midx]
      omega

theorem c4_calendar_dates_witness :
    (schedule cfgW2).get? 0 = some (recAt cfgW2 0) ∧
    (recAt cfgW2 0).date = monthEndOf (cfgW2.drawBase.midx + 1) := by
  have h := schedule_get cfgW2 0 (by decide)
  exact ⟨h, (c4_calendar_dates cfgW2 0 _ h).1⟩

/-- The concrete anchor scenario of the spec: anchor date 2024-02-15. -/
def cfgC5 : Config :=
  { principal := 100000, annualRate := 12/100, termMonths := 2,
    drawBase := ⟨2024, 2, 15⟩, paydownBase := ⟨2024, 2, 15⟩,
    interestMode := .capitalize, drawMode := .fixed 0, paydownMode := .fixed 0 0 }

/-- C5 counterexample: with anchor 2024-02-15 the code dates period 1 at
2024-03-31, not at the anchors own month end 2024-02-29 as the claim
states (`start_date + MonthEnd(1)` leaves the already-normalized month
end and lands one month later). -/
theorem c5_counterexample :
    ((schedule cfgC5).get? 0).map PeriodRecord.date = some ⟨2024, 3, 31⟩ ∧
    some (⟨2024, 3, 31⟩ : Date) ≠ some (⟨2024, 2, 29⟩ : Date) := by
  constructor
  · rw [schedule_get cfgC5 0 (by decide)]
    rfl
  · decide

/-- C5 amended: with anchor date 2024-02-15 the generated schedule dates
period 1 at 2024-03-31 and period 2 at 2024-04-30 (the anchor is first
normalized to its month end 2024-02-29 and each period advances one
month end past it). -/
theorem c5_first_period_dates :
    ((schedule cfgC5).get? 0).map PeriodRecord.date = some ⟨2024, 3, 31⟩ ∧
    ((schedule cfgC5).get? 1).map PeriodRecord.date = some ⟨2024, 4, 30⟩ := by
  constructor
  · rw [schedule_get cfgC5 0 (by decide)]
    rfl
  · rw [schedule_get cfgC5 1 (by decide)]
    rfl

/-- C6: a record whose date precedes the paydown start month end has
paydown zero, in every paydown mode. -/
theorem c6_paydown_gate (c : Config) (r : PeriodRecord) (hr : r ∈ schedule c)
    (hlt : dateLt r.date (paydownStart c)) : r.paydown = 0 := by
  obtain ⟨j, b, rfl⟩ := mem_schedule c r hr
  rw [buildRow_paydown, if_pos]
  exact hlt

def cfgW6 : Config :=
  { principal := 5000, annualRate := 12/100, termMonths := 1,
    drawBase := ⟨2025, 1, 20⟩, paydownBase := ⟨2025, 3, 5⟩,
    interestMode := .capitalize, drawMode := .fixed 0, paydownMode := .fixed 3 50000 }

theorem c6_paydown_gate_witness :
    recAt cfgW6 0 ∈ schedule cfgW6 ∧
    dateLt (recAt cfgW6 0).date (paydownStart cfgW6) ∧
    (recAt cfgW6 0).paydown = 0 := by
  have hmem := recAt_mem cfgW6 0 (by decide)
  have hlt : dateLt (recAt cfgW6 0).date (paydownStart cfgW6) := by decide
  exact ⟨hmem, hlt, c6_paydown_gate cfgW6 _ hmem hlt⟩

/-- The concrete capitalized-interest scenario of the spec. -/
def cfgC7 : Config :=
  { principal := 100000, annualRate := 12/100, termMonths := 3,
    drawBase := ⟨2024, 1, 1⟩, paydownBase := ⟨2024, 1, 1⟩,
    interestMode := .capitalize, drawMode := .fixed 0, paydownMode := .fixed 0 0 }

/-- C7: with principal 100000, annual rate 0.12, term 3, zero draws and
zero paydowns under capitalized interest, the schedule is exactly
(100000, 1000, 101000), (101000, 1010, 102010),
(102010, 1020.10, 103030.10). -/
theorem c7_concrete_capitalized :
    ((schedule cfgC7).map fun r => (r.begBalance, r.interestDraw, r.endBalance)) =
      [(100000, 1000, 101000), (101000, 1010, 102010),
       (102010, 10201 / 10, 1030301 / 10)] := by
  norm_num [cfgC7, schedule, buildFrom, buildRow, startDate, monthEnd0, addMonthEnd,
    Date.midx, monthEndOf, daysInMonth, isLeap, monthlyRate, drawAmt, paydownRaw,
    paydownStart, dateLt, Date.toKey]

/-- A configuration with a negative principal. -/
def cfgC9 : Config :=
  { principal := -1, annualRate := 12/100, termMonths := 3,
    drawBase := ⟨2024, 1, 1⟩, paydownBase := ⟨2024, 1, 1⟩,
    interestMode := .capitalize, drawMode := .fixed 0, paydownMode := .fixed 0 0 }

/-- C9 counterexample: a negative principal does not make generation
signal any configuration error: a complete 3-record schedule is
produced, seeded with the negative principal. -/
theorem c9_counterexample :
    (schedule cfgC9).length = 3 ∧
    ((schedule cfgC9).get? 0).map PeriodRecord.begBalance = some (-1) := by
  constructor
  · rfl
  · rw [schedule_get cfgC9 0 (by decide)]
    rfl

/-- C9 amended: schedule generation performs no input validation and has
no error path: even for a negative principal it totally produces exactly
term_months records by the same recurrence, seeded with that principal
(a term of zero likewise yields the empty schedule rather than an
error). -/
theorem c9_no_validation (c : Config) (_hneg : c.principal < 0) :
    (schedule c).length = c.termMonths ∧
    (0 < c.termMonths →
      ((schedule c).get? 0).map PeriodRecord.begBalance = some c.principal) := by
  refine ⟨schedule_length c, fun ht => ?_⟩
  rw [schedule_get c 0 ht]
  rfl

theorem c9_no_validation_witness :
    cfgC9.principal < 0 ∧ (schedule cfgC9).length = cfgC9.termMonths := by
  have hneg : cfgC9.principal < 0 := by norm_num [cfgC9]
  exact ⟨hneg, (c9_no_validation cfgC9 hneg).1⟩

/-- C1 (amended): a valuation of the worksheet consistent with all its
Literal and Formula cells exists, and every such valuation reproduces
every field of every PeriodRecord exactly (hence within any tolerance)
on the corresponding data row, in both interest modes; in custom
paydown mode this holds unconditionally, and in fixed paydown mode it
holds provided no record is date-gated (no period date precedes the
paydown start). -/
theorem c1_formula_value_equivalence (c : Config) (hpd : UngatedFixed c) :
    (∃ V, SatisfiesGrid c V) ∧
    ∀ V, SatisfiesGrid c V → ∀ k r, (schedule c).get? k = some r →
      V (8 + k) 2 = r.begBalance ∧ V (8 + k) 3 = r.constDraw ∧
      V (8 + k) 4 = r.interestDraw ∧ V (8 + k) 5 = r.totalDraw ∧
      V (8 + k) 6 = r.paydown ∧ V (8 + k) 7 = r.endBalance := by
  refine ⟨⟨sheetVal c, sheetVal_satisfies c hpd⟩, ?_⟩
  intro V hV k r h
  obtain ⟨hk, rfl⟩ := schedule_get_inv c k r h
  exact satisfies_grid_vals c V hV hpd k hk

/-- A custom-paydown, custom-draw configuration used as the witness
input for the formula/value equivalence. -/
def cfgW1 : Config :=
  { principal := 1000, annualRate := 24/100, termMonths := 2,
    drawBase := ⟨2025, 2, 3⟩, paydownBase := ⟨2025, 2, 3⟩,
    interestMode := .capitalize, drawMode := .custom (fun i => 100 * i),
    paydownMode := .custom (fun _ => 7) }

theorem c1_formula_value_equivalence_witness :
    UngatedFixed cfgW1 ∧ SatisfiesGrid cfgW1 (sheetVal cfgW1) ∧
    sheetVal cfgW1 (8 + 0) 2 = (recAt cfgW1 0).begBalance := by
  have hpd : UngatedFixed cfgW1 := trivial
  have h := (c1_formula_value_equivalence cfgW1 hpd).2 (sheetVal cfgW1)
    (sheetVal_satisfies cfgW1 hpd) 0 (recAt cfgW1 0) (schedule_get cfgW1 0 (by decide))
  exact ⟨hpd, sheetVal_satisfies cfgW1 hpd, h.1⟩

/-- Every consistent valuation gives the paydown cell of data row 0 the
value `v`. -/
def PaydownCellForced (c : Config) (v : ℚ) : Prop :=
  ∀ V, SatisfiesGrid c V → V 8 6 = v

/-- C1 counterexample: in the gated fixed-paydown configuration
`cfgW6`, every consistent valuation evaluates the period-1 paydown
Formula cell to 150000 while the PeriodRecord paydown is 0, which is
not within 1e-6 relative tolerance. -/
theorem c1_counterexample :
    PaydownCellForced cfgW6 150000 ∧
    ((schedule cfgW6).get? 0).map PeriodRecord.paydown = some 0 ∧
    ¬ ((150000 : ℚ) - 0 ≤ (1 / 1000000) * 150000) := by
  refine ⟨?_, ?_, by norm_num⟩
  · intro V hV
    have h := hV (8 + 0) 6
    rw [grid_data cfgW6 0 6 (by decide),
      dataCell_six_fixed cfgW6 (recAt cfgW6 0) 0 3 50000 rfl] at h
    have h2 : V (8 + 0) 6 = V 4 1 * V 5 1 := h
    have h41 : V 4 1 = (3 : ℚ) := hV 4 1
    have h51 : V 5 1 = (50000 : ℚ) := hV 5 1
    rw [h41, h51] at h2
    have h3 : (3 : ℚ) * 50000 = 150000 := by norm_num
    rw [h3] at h2
    exact h2
  · rw [schedule_get cfgW6 0 (by decide)]
    rfl

/-- C8 (amended): the construction-draw column and the first row's
beginning-balance seed are Literal cells in every mode, and the paydown
column is a Literal in custom paydown mode; but in fixed paydown mode
the paydown column is the Formula =$B$5*$B$6, not a Literal. -/
theorem c8_policy_input_cells (c : Config) (k : Nat) (hk : k < c.termMonths) :
    grid c (8 + k) 3 = some (Cell.literal (recAt c k).constDraw) ∧
    grid c 8 2 = some (Cell.literal c.principal) ∧
    (∀ f, c.paydownMode = .custom f →
      grid c (8 + k) 6 = some (Cell.literal (recAt c k).paydown)) ∧
    (∀ n a, c.paydownMode = .fixed n a →
      grid c (8 + k) 6 = some (Cell.formula Formula.b5b6)) := by
  refine ⟨?_, ?_, ?_, ?_⟩
  · rw [grid_data c k 3 hk]
    rfl
  · have h0 : (0 : Nat) < c.termMonths := by omega
    have h2 := grid_data c 0 2 h0
    exact h2.trans rfl
  · intro f hf
    rw [grid_data c k 6 hk]
    exact dataCell_six_custom c (recAt c k) k f hf
  · intro n a hf
    rw [grid_data c k 6 hk]
    exact dataCell_six_fixed c (recAt c k) k n a hf

/-- A custom-paydown configuration for the C8 witness. -/
def cfgW8 : Config :=
  { principal := 2000, annualRate := 0, termMonths := 1,
    drawBase := ⟨2025, 5, 5⟩, paydownBase := ⟨2025, 5, 5⟩,
    interestMode := .payCash, drawMode := .fixed 10,
    paydownMode := .custom (fun _ => 25) }

theorem c8_policy_input_cells_witness :
    grid cfgW8 8 3 = some (Cell.literal (recAt cfgW8 0).constDraw) ∧
    grid cfgW8 8 6 = some (Cell.literal (recAt cfgW8 0).paydown) := by
  have h := c8_policy_input_cells cfgW8 0 (by decide)
  exact ⟨h.1, h.2.2.1 (fun _ => 25) rfl⟩

/-- C8 counterexample: in the fixed-paydown configuration `cfgW6` the
paydown cell of the first data row is not a Literal (it is the Formula
=$B$5*$B$6). -/
theorem c8_counterexample :
    (grid cfgW6 8 6).map Cell.isLit = some false := rfl

/-- C10: in fixed paydown mode the paydown cell of every data row is
the Formula rendered as =$B$5*$B$6, for every row index below the term,
including rows whose in-memory paydown was gated to zero (the witness
instantiates a gated row): the date gate is not encoded in the
workbook. -/
theorem c10_fixed_paydown_cell (c : Config) (n a : ℚ)
    (hm : c.paydownMode = .fixed n a) (k : Nat) (hk : k < c.termMonths) :
    grid c (8 + k) 6 = some (Cell.formula Formula.b5b6) ∧
    render Formula.b5b6 = (r"=$B$5*$B$6") := by
  refine ⟨?_, rfl⟩
  rw [grid_data c k 6 hk]
  exact dataCell_six_fixed c (recAt c k) k n a hm

theorem c10_fixed_paydown_cell_witness :
    cfgW6.paydownMode = PaydownMode.fixed 3 50000 ∧
    grid cfgW6 8 6 = some (Cell.formula Formula.b5b6) ∧
    dateLt (recAt cfgW6 0).date (paydownStart cfgW6) ∧
    (recAt cfgW6 0).paydown = 0 := by
  have h := c10_fixed_paydown_cell cfgW6 3 50000 rfl 0 (by decide)
  exact ⟨rfl, h.1, by decide, by decide⟩

end LoanAmort
